import Mathlib

/-!
# Verification of the KORRA messaging substrate

Shallow embedding of `src/korra/c/net/transport.c` and
`src/korra/c/core/thread.c` together with proofs about the framed wire
protocol (encode/decode, validation, peer-close handling) and the bounded
work queue (FIFO order, shutdown behaviour, drain semantics).

Machine integers are modelled as `Nat` with explicit `% 2^w` reductions at
the points where the C code serialises them.  Socket I/O is modelled by an
explicit byte stream plus oracles giving the byte count each `send`/`recv`
call transfers (a stream socket may transfer fewer bytes than requested).
Host endianness is an explicit parameter `le : Bool` (`true` = little
endian), because `transport.c` serialises the raw `transport_header_t`
struct without any `htonl`/`htons` conversion.  The uninitialised
`header.reserved` field in `transport_send` is modelled by an explicit
`stackReserved` parameter holding whatever the stack memory contained.
-/

namespace Korra

/-- `KORRA_MSG_MAGIC` from transport.c line 19. -/
def KORRA_MSG_MAGIC : Nat := 0x4B525241

/-- `KORRA_PROTOCOL_VERSION` from transport.h line 17. -/
def KORRA_PROTOCOL_VERSION : Nat := 1

/-- The in-memory bytes of a `uint32_t`, least-significant byte first. -/
def u32bytesLE (x : Nat) : List Nat :=
  [x % 256, x / 256 % 256, x / 65536 % 256, x / 16777216 % 256]

/-- The in-memory bytes of a `uint32_t` on a host with endianness `le`. -/
def u32bytes (le : Bool) (x : Nat) : List Nat :=
  if le then u32bytesLE x else (u32bytesLE x).reverse

/-- The in-memory bytes of a `uint16_t` on a host with endianness `le`. -/
def u16bytes (le : Bool) (x : Nat) : List Nat :=
  if le then [x % 256, x / 256 % 256] else [x / 256 % 256, x % 256]

/-- `transport_header_t` (transport.h lines 32–38): magic, version,
msg_type, reserved, payload_size. -/
structure transport_header_t where
  magic : Nat
  version : Nat
  msg_type : Nat
  reserved : Nat
  payload_size : Nat
deriving DecidableEq

/-- The 12 raw bytes of a `transport_header_t` struct in host memory:
uint32 at offset 0, two uint8 at 4 and 5, uint16 at 6, uint32 at 8 —
naturally aligned, no padding.  `transport_send` passes exactly these
bytes to `send`. -/
def headerBytes (le : Bool) (h : transport_header_t) : List Nat :=
  u32bytes le h.magic ++ [h.version % 256, h.msg_type % 256] ++
    u16bytes le h.reserved ++ u32bytes le h.payload_size

/-- Reassemble a `uint32_t` from four memory bytes on a host with
endianness `le`. -/
def parseU32 (le : Bool) (b0 b1 b2 b3 : Nat) : Nat :=
  if le then b0 + 256 * b1 + 65536 * b2 + 16777216 * b3
  else b3 + 256 * b2 + 65536 * b1 + 16777216 * b0

/-- The `transport_header_t` struct obtained by `recv`-ing 12 raw bytes
into it on a host with endianness `le` (transport.c line 132). -/
def parseHeader (le : Bool) (bs : List Nat) : transport_header_t :=
  { magic := parseU32 le (bs.getD 0 0) (bs.getD 1 0) (bs.getD 2 0) (bs.getD 3 0)
    version := bs.getD 4 0
    msg_type := bs.getD 5 0
    reserved := if le then bs.getD 6 0 + 256 * bs.getD 7 0
                else bs.getD 7 0 + 256 * bs.getD 6 0
    payload_size := parseU32 le (bs.getD 8 0) (bs.getD 9 0) (bs.getD 10 0) (bs.getD 11 0) }

/-- `transport_message_t` (transport.h lines 41–45).  The `void* payload`
pointer is `none` for NULL, `some bs` for a buffer holding bytes `bs`. -/
structure transport_message_t where
  msg_type : Nat
  payload_size : Nat
  payload : Option (List Nat)
deriving DecidableEq

/-- `transport_socket_t` (transport.c lines 25–30), without the sockaddr. -/
structure transport_socket_t where
  socket_fd : Int
  is_server : Bool
  is_connected : Bool
deriving DecidableEq

/-- Result of `transport_send`: the C return value, the socket state after
the call, and the bytes that went out on the wire. -/
structure SendResult where
  ret : Int
  sock : transport_socket_t
  wire : List Nat
deriving DecidableEq

/-- The header prepared by `transport_send` (transport.c lines 100–104).
`header.reserved` is never assigned, so it holds whatever the stack
memory contained: the explicit `stackReserved` argument. -/
def transport_send_header (message : transport_message_t)
    (stackReserved : Nat) : transport_header_t :=
  { magic := KORRA_MSG_MAGIC
    version := KORRA_PROTOCOL_VERSION
    msg_type := message.msg_type
    reserved := stackReserved
    payload_size := message.payload_size }

/-- `transport_send` (transport.c lines 93–122).  `headerSendOk` /
`payloadSendOk` say whether the corresponding `send` call transferred its
full byte count (the code treats anything else as failure).  The wire
bytes on a failure path are dropped, as no claim observes them. -/
def transport_send (sock : transport_socket_t) (message : transport_message_t)
    (stackReserved : Nat) (le : Bool)
    (headerSendOk payloadSendOk : Bool) : SendResult :=
  if sock.is_connected = false then ⟨-1, sock, []⟩
  else
    let header := transport_send_header message stackReserved
    if headerSendOk = false then ⟨-1, sock, []⟩
    else
      let hb := headerBytes le header
      if message.payload_size > 0 then
        if payloadSendOk = false then ⟨-1, sock, hb⟩
        else ⟨0, sock, hb ++ (message.payload.getD []).take message.payload_size⟩
      else ⟨0, sock, hb⟩

/-- Result of `transport_receive`: return value, socket state after the
call, the fields of the out-parameter `message` that the call wrote
(`none` = field left untouched), whether a malloc'd payload buffer is
left with the caller, and whether the payload `recv` was reached. -/
structure ReceiveResult where
  ret : Int
  sock : transport_socket_t
  msg_type : Option Nat
  payload_size : Option Nat
  payload : Option (Option (List Nat))
  allocated : Bool
  payloadRecvCalled : Bool
deriving DecidableEq

/-- `transport_receive` (transport.c lines 124–185).  `stream` is the byte
sequence available on the socket; `hdrRet` / `plRet` are the byte counts
the two `recv` calls return (capped by the request size and by the bytes
available, as a stream socket cannot deliver more); `mallocOk` says
whether the payload `malloc` succeeds. -/
def transport_receive (sock : transport_socket_t) (stream : List Nat) (le : Bool)
    (hdrRet plRet : Nat) (mallocOk : Bool) : ReceiveResult :=
  if sock.is_connected = false then ⟨-1, sock, none, none, none, false, false⟩
  else
    let got := min hdrRet (min 12 stream.length)
    if got ≠ 12 then
      if got = 0 then
        ⟨-1, { sock with is_connected := false }, none, none, none, false, false⟩
      else ⟨-1, sock, none, none, none, false, false⟩
    else
      let header := parseHeader le (stream.take 12)
      if header.magic ≠ KORRA_MSG_MAGIC then
        ⟨-1, sock, none, none, none, false, false⟩
      else if header.version ≠ KORRA_PROTOCOL_VERSION then
        ⟨-1, sock, none, none, none, false, false⟩
      else
        if header.payload_size > 0 then
          if mallocOk = false then
            ⟨-1, sock, some header.msg_type, some header.payload_size,
              some none, false, false⟩
          else
            let rest := stream.drop 12
            let got2 := min plRet (min header.payload_size rest.length)
            if got2 ≠ header.payload_size then
              if got2 = 0 then
                ⟨-1, { sock with is_connected := false }, some header.msg_type,
                  some header.payload_size, some none, false, true⟩
              else
                ⟨-1, sock, some header.msg_type, some header.payload_size,
                  some none, false, true⟩
            else
              ⟨0, sock, some header.msg_type, some header.payload_size,
                some (some (rest.take header.payload_size)), true, true⟩
        else
          ⟨0, sock, some header.msg_type, some header.payload_size,
            some none, false, false⟩

/-!
## Thread pool (`src/korra/c/core/thread.c`)

All queue state (`queue`, `queue_size`, `head`, `tail`, `shutdown`) is
mutated only inside `pthread_mutex_lock(&pool.queue_mutex)` critical
sections, so a concurrent execution is a linearisation of atomic critical
sections; each is modelled as one step of a transition system.  The ghost
lists `submitted`/`dequeued` record the successfully enqueued tasks and
the dequeued tasks in order.  A worker executes its task before its next
loop iteration and before it can exit, so the dequeued list is also the
executed list.
-/

/-- `MAX_QUEUE` from thread.c line 20. -/
def MAX_QUEUE : Nat := 256

/-- `MAX_THREADS` from thread.c line 19. -/
def MAX_THREADS : Nat := 8

/-- `thread_task_t` (thread.h lines 17–21); the function pointer and the
`void*` argument are opaque words. -/
structure thread_task_t where
  name : String
  function : Nat
  arg : Nat
deriving DecidableEq, Inhabited

/-- The mutex-protected part of `thread_pool_t` (thread.c lines 23–33). -/
structure thread_pool_t where
  queue : Nat → thread_task_t
  queue_size : Nat
  head : Nat
  tail : Nat
  shutdown : Bool

/-- `thread_pool_submit` (thread.c lines 105–131) as its effect on the
protected state once the call returns.  `none` models a caller still
blocked in `pthread_cond_wait` (queue full and no shutdown): the call has
not returned and has changed nothing. -/
def thread_pool_submit (p : thread_pool_t) (task : thread_task_t) :
    Option (Int × thread_pool_t) :=
  if p.queue_size = MAX_QUEUE ∧ p.shutdown = false then none
  else if p.shutdown = true then some (-1, p)
  else some (0,
    { p with
      queue := Function.update p.queue p.tail task
      tail := (p.tail + 1) % MAX_QUEUE
      queue_size := p.queue_size + 1 })

/-- Outcome of one iteration of the `thread_worker` critical section. -/
inductive WorkerStep where
  | blocked : WorkerStep
  | exit : WorkerStep
  | dequeued : thread_task_t → thread_pool_t → WorkerStep

/-- One iteration of `thread_worker`'s critical section (thread.c lines
40–60): wait while empty and not shutting down; exit iff shutdown with an
empty queue; otherwise take the task at `head`. -/
def thread_worker_step (p : thread_pool_t) : WorkerStep :=
  if p.queue_size = 0 ∧ p.shutdown = false then .blocked
  else if p.shutdown = true ∧ p.queue_size = 0 then .exit
  else .dequeued (p.queue p.head)
    { p with head := (p.head + 1) % MAX_QUEUE, queue_size := p.queue_size - 1 }

/-- Whole-system state: pool, per-thread exited flags, whether
`thread_pool_shutdown` has returned, and the ghost histories. -/
structure PoolSys where
  pool : thread_pool_t
  workers : Nat → Bool
  shutdownReturned : Bool
  submitted : List thread_task_t
  dequeued : List thread_task_t

/-- `allExited` holds when all `MAX_THREADS` workers have exited. -/
def allExited (s : PoolSys) : Bool := (List.range MAX_THREADS).all s.workers

/-- Events of the system: a producer's `thread_pool_submit` call completes,
worker `w` completes one loop iteration, `thread_pool_shutdown` sets the
flag (lines 136–140), or `thread_pool_shutdown` returns after its
`pthread_join` loop (lines 143–148), which requires every worker to have
exited. -/
inductive PoolOp where
  | submit : thread_task_t → PoolOp
  | worker : Nat → PoolOp
  | shutdownReq : PoolOp
  | shutdownRet : PoolOp
deriving DecidableEq

/-- One atomic system step. -/
def applyOp (s : PoolSys) (op : PoolOp) : PoolSys :=
  match op with
  | .submit t =>
    match thread_pool_submit s.pool t with
    | none => s
    | some (r, p') =>
      if r = 0 then { s with pool := p', submitted := s.submitted ++ [t] }
      else { s with pool := p' }
  | .worker w =>
    if w < MAX_THREADS ∧ s.workers w = false then
      match thread_worker_step s.pool with
      | .blocked => s
      | .exit => { s with workers := Function.update s.workers w true }
      | .dequeued t p' => { s with pool := p', dequeued := s.dequeued ++ [t] }
    else s
  | .shutdownReq => { s with pool := { s.pool with shutdown := true } }
  | .shutdownRet =>
    if s.pool.shutdown = true ∧ allExited s = true then
      { s with shutdownReturned := true }
    else s

/-- Pool state after `thread_pool_init` (thread.c line 74: `memset` to 0). -/
def initPool : thread_pool_t :=
  { queue := fun _ => default, queue_size := 0, head := 0, tail := 0, shutdown := false }

/-- System state right after `thread_pool_init`. -/
def initSys : PoolSys :=
  { pool := initPool, workers := fun _ => false, shutdownReturned := false,
    submitted := [], dequeued := [] }

/-- Run a sequence of atomic steps. -/
def applyOps (s : PoolSys) (ops : List PoolOp) : PoolSys := ops.foldl applyOp s

/-- The tasks sitting in the circular buffer: `n` entries starting at
index `head`, wrapping modulo `MAX_QUEUE`. -/
def pendingList (q : Nat → thread_task_t) (head : Nat) : Nat → List thread_task_t
  | 0 => []
  | Nat.succ n => q head :: pendingList q ((head + 1) % MAX_QUEUE) n

/-- Inductive invariant of the pool system. -/
def PoolInv (s : PoolSys) : Prop :=
  s.pool.head < MAX_QUEUE ∧
  s.pool.queue_size ≤ MAX_QUEUE ∧
  s.pool.tail = (s.pool.head + s.pool.queue_size) % MAX_QUEUE ∧
  s.submitted = s.dequeued ++ pendingList s.pool.queue s.pool.head s.pool.queue_size ∧
  ((∃ w, w < MAX_THREADS ∧ s.workers w = true) →
    s.pool.shutdown = true ∧ s.pool.queue_size = 0) ∧
  (s.shutdownReturned = true → s.pool.shutdown = true ∧ allExited s = true)

/-!
## Helper lemmas about the wire codec
-/

theorem headerBytes_length (le : Bool) (h : transport_header_t) :
    (headerBytes le h).length = 12 := by
  cases le <;> simp [headerBytes, u32bytes, u32bytesLE, u16bytes]

theorem parseHeader_headerBytes (le : Bool) (h : transport_header_t) :
    parseHeader le (headerBytes le h) =
      { magic := h.magic % 4294967296
        version := h.version % 256
        msg_type := h.msg_type % 256
        reserved := h.reserved % 65536
        payload_size := h.payload_size % 4294967296 } := by
  cases le <;>
    · simp only [parseHeader, headerBytes, u32bytes, u32bytesLE, u16bytes,
        parseU32, List.reverse, List.reverseAux, List.cons_append, List.nil_append,
        List.getD_cons_zero, List.getD_cons_succ, if_true, if_false,
        Bool.false_eq_true, Bool.true_eq_false, ite_true, ite_false]
      refine transport_header_t.mk.injEq .. ▸ ?_
      norm_num
      omega

theorem transport_send_ok_wire (sock : transport_socket_t) (m : transport_message_t)
    (g : Nat) (le : Bool) (hc : sock.is_connected = true) :
    transport_send sock m g le true true =
      ⟨0, sock, headerBytes le (transport_send_header m g) ++
        (m.payload.getD []).take m.payload_size⟩ := by
  unfold transport_send
  rcases Nat.eq_zero_or_pos m.payload_size with h0 | hpos
  · simp [hc, h0]
  · simp [hc, Nat.pos_iff_ne_zero.mp hpos]

/-- C1: a message whose `payload_size` equals its payload length survives
the encode/decode round trip: `transport_send`'s wire bytes, read back by
`transport_receive` on a same-endianness host with full reads, reproduce
`msg_type`, `payload_size`, and the payload bytes exactly. -/
theorem C1_encode_decode_roundtrip (sock₁ sock₂ : transport_socket_t)
    (m : transport_message_t) (stackReserved : Nat) (le : Bool)
    (hc1 : sock₁.is_connected = true) (hc2 : sock₂.is_connected = true)
    (hty : m.msg_type < 256) (hsz : m.payload_size < 4294967296)
    (hlen : m.payload_size = (m.payload.getD []).length) :
    (transport_send sock₁ m stackReserved le true true).ret = 0 ∧
    (transport_receive sock₂ (transport_send sock₁ m stackReserved le true true).wire
        le 12 m.payload_size true).ret = 0 ∧
    (transport_receive sock₂ (transport_send sock₁ m stackReserved le true true).wire
        le 12 m.payload_size true).msg_type = some m.msg_type ∧
    (transport_receive sock₂ (transport_send sock₁ m stackReserved le true true).wire
        le 12 m.payload_size true).payload_size = some m.payload_size ∧
    ((transport_receive sock₂ (transport_send sock₁ m stackReserved le true true).wire
        le 12 m.payload_size true).payload.getD none).getD [] = m.payload.getD [] := by
  rw [transport_send_ok_wire sock₁ m stackReserved le hc1]
  refine ⟨rfl, ?_⟩
  set hb := headerBytes le (transport_send_header m stackReserved) with hhb
  set pl := (m.payload.getD []).take m.payload_size with hpl
  have hplfull : pl = m.payload.getD [] := by
    rw [hpl, hlen, List.take_length]
  have hpllen : pl.length = m.payload_size := by rw [hplfull, hlen]
  have hhblen : hb.length = 12 := headerBytes_length le _
  have htake : (hb ++ pl).take 12 = hb := by
    rw [← hhblen]; exact List.take_left hb pl
  have hdrop : (hb ++ pl).drop 12 = pl := by
    rw [← hhblen]; exact List.drop_left hb pl
  have hlen12 : 12 ≤ (hb ++ pl).length := by
    rw [List.length_append, hhblen]; omega
  have hparse : parseHeader le ((hb ++ pl).take 12) =
      { magic := KORRA_MSG_MAGIC, version := KORRA_PROTOCOL_VERSION,
        msg_type := m.msg_type, reserved := stackReserved % 65536,
        payload_size := m.payload_size } := by
    rw [htake, hhb, parseHeader_headerBytes]
    simp only [transport_send_header]
    refine transport_header_t.mk.injEq .. ▸ ?_
    refine ⟨?_, ?_, ?_, ?_, ?_⟩
    · norm_num [KORRA_MSG_MAGIC]
    · norm_num [KORRA_PROTOCOL_VERSION]
    · exact Nat.mod_eq_of_lt hty
    · rfl
    · exact Nat.mod_eq_of_lt hsz
  unfold transport_receive
  rw [hc2]
  simp only [Bool.true_eq_false, if_false, hparse]
  have hgot : min 12 (min 12 (hb ++ pl).length) = 12 := by omega
  rw [hgot]
  simp only [ne_eq, not_true_eq_false, if_false, ite_false, reduceIte]
  rcases Nat.eq_zero_or_pos m.payload_size with h0 | hpos
  · have hplnil : m.payload.getD [] = [] := by
      refine List.eq_nil_of_length_eq_zero ?_; omega
    simp [h0, hplnil]
  · rw [if_pos hpos]
    have hgot2 : min m.payload_size (min m.payload_size ((hb ++ pl).drop 12).length) =
        m.payload_size := by
      rw [hdrop, hpllen]; simp
    rw [if_neg (not_not_intro hgot2)]
    refine ⟨rfl, rfl, rfl, ?_⟩
    simp only [Option.getD_some]
    rw [hdrop, ← hpllen, List.take_length, hplfull]

/-- A connected client-side socket, as after a successful `transport_init`. -/
def sockA : transport_socket_t := ⟨3, false, true⟩

/-- A second connected socket for the receiving side. -/
def sockB : transport_socket_t := ⟨4, false, true⟩

/-- A sample `MSG_JOB_SUBMIT` message with a 3-byte payload. -/
def msgSample : transport_message_t := ⟨3, 3, some [10, 20, 30]⟩

theorem C1_encode_decode_roundtrip_witness :
    (sockA.is_connected = true ∧ sockB.is_connected = true ∧
      msgSample.msg_type < 256 ∧ msgSample.payload_size < 4294967296 ∧
      msgSample.payload_size = (msgSample.payload.getD []).length) ∧
    ((transport_send sockA msgSample 0 true true true).ret = 0 ∧
     (transport_receive sockB (transport_send sockA msgSample 0 true true true).wire
        true 12 msgSample.payload_size true).ret = 0 ∧
     (transport_receive sockB (transport_send sockA msgSample 0 true true true).wire
        true 12 msgSample.payload_size true).msg_type = some msgSample.msg_type ∧
     (transport_receive sockB (transport_send sockA msgSample 0 true true true).wire
        true 12 msgSample.payload_size true).payload_size = some msgSample.payload_size ∧
     ((transport_receive sockB (transport_send sockA msgSample 0 true true true).wire
        true 12 msgSample.payload_size true).payload.getD none).getD [] =
       msgSample.payload.getD []) :=
  ⟨by decide, C1_encode_decode_roundtrip sockA sockB msgSample 0 true
    (by decide) (by decide) (by decide) (by decide) (by decide)⟩

/-- C2 fails on the code: `transport_send` never assigns `header.reserved`
(transport.c lines 100–104 set magic, version, msg_type, payload_size
only), so the reserved field goes out holding whatever the stack
contained.  Here, with stack residue `0xBEEF` on a big-endian host, wire
bytes 6–7 are `BE EF`, not `00 00` as the claim requires. -/
theorem C2_reserved_not_zeroed :
    (transport_send_header msgSample 0xBEEF).reserved = 0xBEEF ∧
    ((transport_send sockA ⟨0, 0, none⟩ 0xBEEF false true true).wire.drop 6).take 2 =
      [0xBE, 0xEF] ∧ (0xBE : Nat) ≠ 0 := by decide

/-- C3 fails on the code: `transport_send` passes the raw
`transport_header_t` struct to `send` with no `htonl`/`htons`, so
multi-byte fields go out in host byte order.  On a little-endian host the
magic `0x4B525241` serialises as `41 52 52 4B` ("ARRK"), not the
big-endian `4B 52 52 41` ("KRRA") the wire-format table requires
independently of host endianness. -/
theorem C3_host_byte_order_not_network_order :
    (transport_send sockA ⟨0, 0, none⟩ 0 true true true).wire.take 4 =
      [0x41, 0x52, 0x52, 0x4B] ∧
    [0x41, 0x52, 0x52, 0x4B] ≠ [0x4B, 0x52, 0x52, 0x41] := by decide

/-- C5: when the shutdown flag is set, `thread_pool_submit` returns -1
immediately and leaves the pool state (queue contents, head, tail,
queue_size) exactly as it was, regardless of available space. -/
theorem C5_submit_rejected_after_shutdown (p : thread_pool_t) (task : thread_task_t)
    (h : p.shutdown = true) :
    thread_pool_submit p task = some (-1, p) := by
  unfold thread_pool_submit
  rw [h]
  simp

/-- A pool state with the shutdown flag set and space available. -/
def poolShut : thread_pool_t :=
  { queue := fun _ => default, queue_size := 5, head := 2, tail := 7, shutdown := true }

/-- A sample task. -/
def taskSample : thread_task_t := ⟨"t0", 1, 2⟩

theorem C5_submit_rejected_after_shutdown_witness :
    poolShut.shutdown = true ∧ thread_pool_submit poolShut taskSample = some (-1, poolShut) :=
  ⟨rfl, C5_submit_rejected_after_shutdown poolShut taskSample rfl⟩

/-- C9: on a connected transport, a failed header or payload write makes
`transport_send` return -1 with the socket state — in particular
`is_connected` — exactly unchanged; `transport_send` never mutates the
socket. -/
theorem C9_send_failure_keeps_connected (sock : transport_socket_t)
    (m : transport_message_t) (g : Nat) (le : Bool) (hOk pOk : Bool)
    (hc : sock.is_connected = true)
    (hfail : hOk = false ∨ (0 < m.payload_size ∧ pOk = false)) :
    (transport_send sock m g le hOk pOk).ret = -1 ∧
    (transport_send sock m g le hOk pOk).sock = sock ∧
    (transport_send sock m g le hOk pOk).sock.is_connected = true := by
  unfold transport_send
  rw [hc]
  rcases hfail with hf | ⟨hpos, hf⟩
  · rw [hf]
    simp [hc]
  · rw [hf]
    rcases hOk with _ | _
    · simp [hc]
    · simp [if_pos hpos, hc]

theorem C9_send_failure_keeps_connected_witness :
    (sockA.is_connected = true ∧
      ((false : Bool) = false ∨ (0 < msgSample.payload_size ∧ (true : Bool) = false))) ∧
    ((transport_send sockA msgSample 0 true false true).ret = -1 ∧
     (transport_send sockA msgSample 0 true false true).sock = sockA ∧
     (transport_send sockA msgSample 0 true false true).sock.is_connected = true) :=
  ⟨⟨rfl, Or.inl rfl⟩,
    C9_send_failure_keeps_connected sockA msgSample 0 true false true rfl (Or.inl rfl)⟩

/-- C7: a fully-received header whose magic is not `0x4B525241` or whose
version is not 1 makes `transport_receive` return -1 immediately: no
message field is written, no payload buffer is allocated, and the payload
`recv` is never reached — whatever `payload_size` the header carries, and
independently of the payload-read and malloc oracles. -/
theorem C7_invalid_header_rejected (sock : transport_socket_t) (stream : List Nat)
    (le : Bool) (hdrRet plRet : Nat) (mallocOk : Bool)
    (hc : sock.is_connected = true) (hr : 12 ≤ hdrRet) (hs : 12 ≤ stream.length)
    (hbad : (parseHeader le (stream.take 12)).magic ≠ KORRA_MSG_MAGIC ∨
      (parseHeader le (stream.take 12)).version ≠ KORRA_PROTOCOL_VERSION) :
    transport_receive sock stream le hdrRet plRet mallocOk =
      ⟨-1, sock, none, none, none, false, false⟩ := by
  unfold transport_receive
  rw [hc]
  have hgot : min hdrRet (min 12 stream.length) = 12 := by omega
  rw [hgot]
  simp only [Bool.true_eq_false, if_false, ne_eq, not_true_eq_false, ite_false, reduceIte]
  by_cases hm : (parseHeader le (stream.take 12)).magic = KORRA_MSG_MAGIC
  · rcases hbad with h | h
    · exact absurd hm h
    · rw [if_neg (not_not_intro hm), if_pos h]
  · rw [if_pos hm]

theorem C7_invalid_header_rejected_witness :
    (sockB.is_connected = true ∧ 12 ≤ 12 ∧
      12 ≤ (List.replicate 20 (0 : Nat)).length ∧
      ((parseHeader true ((List.replicate 20 (0 : Nat)).take 12)).magic ≠ KORRA_MSG_MAGIC ∨
        (parseHeader true ((List.replicate 20 (0 : Nat)).take 12)).version ≠
          KORRA_PROTOCOL_VERSION)) ∧
    transport_receive sockB (List.replicate 20 (0 : Nat)) true 12 8 true =
      ⟨-1, sockB, none, none, none, false, false⟩ :=
  ⟨⟨rfl, by decide, by decide, Or.inl (by decide)⟩,
    C7_invalid_header_rejected sockB (List.replicate 20 0) true 12 8 true rfl
      (by decide) (by decide) (Or.inl (by decide))⟩

/-- C10: a successful receive of a message whose header carries
`payload_size = 0` writes `payload = NULL` without allocating anything,
and copies `msg_type` and `payload_size` from the validated header. -/
theorem C10_zero_payload_receives_null (sock : transport_socket_t) (stream : List Nat)
    (le : Bool) (hdrRet plRet : Nat) (mallocOk : Bool)
    (hc : sock.is_connected = true) (hr : 12 ≤ hdrRet) (hs : 12 ≤ stream.length)
    (hm : (parseHeader le (stream.take 12)).magic = KORRA_MSG_MAGIC)
    (hv : (parseHeader le (stream.take 12)).version = KORRA_PROTOCOL_VERSION)
    (hz : (parseHeader le (stream.take 12)).payload_size = 0) :
    transport_receive sock stream le hdrRet plRet mallocOk =
      ⟨0, sock, some (parseHeader le (stream.take 12)).msg_type, some 0,
        some none, false, false⟩ := by
  unfold transport_receive
  rw [hc]
  have hgot : min hdrRet (min 12 stream.length) = 12 := by omega
  rw [hgot]
  simp only [Bool.true_eq_false, if_false, ne_eq, not_true_eq_false, ite_false, reduceIte]
  rw [if_neg (not_not_intro hm), if_neg (not_not_intro hv), hz]
  simp

theorem C10_zero_payload_receives_null_witness :
    (sockB.is_connected = true ∧ 12 ≤ 12 ∧
      12 ≤ (transport_send sockA ⟨0, 0, none⟩ 7 true true true).wire.length ∧
      (parseHeader true ((transport_send sockA ⟨0, 0, none⟩ 7 true true true).wire.take 12)).magic =
        KORRA_MSG_MAGIC ∧
      (parseHeader true ((transport_send sockA ⟨0, 0, none⟩ 7 true true true).wire.take 12)).version =
        KORRA_PROTOCOL_VERSION ∧
      (parseHeader true ((transport_send sockA ⟨0, 0, none⟩ 7 true true true).wire.take 12)).payload_size =
        0) ∧
    transport_receive sockB (transport_send sockA ⟨0, 0, none⟩ 7 true true true).wire
        true 12 0 true =
      ⟨0, sockB,
        some (parseHeader true ((transport_send sockA ⟨0, 0, none⟩ 7 true true true).wire.take 12)).msg_type,
        some 0, some none, false, false⟩ :=
  ⟨⟨rfl, by decide, by decide, by decide, by decide, by decide⟩,
    C10_zero_payload_receives_null sockB _ true 12 0 true rfl (by decide) (by decide)
      (by decide) (by decide) (by decide)⟩

/-- C8: (i) a zero-byte read at the header boundary makes
`transport_receive` return -1 with `is_connected` set to false and no
payload allocated; (ii) a zero-byte read mid-payload likewise sets
`is_connected` to false, frees the buffer and leaves `payload = NULL`;
(iii) a nonzero short payload read frees the buffer, leaves
`payload = NULL` and returns -1 with `is_connected` untouched. -/
theorem C8_zero_and_short_reads :
    (∀ (sock : transport_socket_t) (stream : List Nat) (le : Bool)
        (hdrRet plRet : Nat) (mallocOk : Bool),
      sock.is_connected = true →
      min hdrRet (min 12 stream.length) = 0 →
      transport_receive sock stream le hdrRet plRet mallocOk =
        ⟨-1, { sock with is_connected := false }, none, none, none, false, false⟩) ∧
    (∀ (sock : transport_socket_t) (stream : List Nat) (le : Bool) (hdrRet plRet : Nat),
      sock.is_connected = true → 12 ≤ hdrRet → 12 ≤ stream.length →
      (parseHeader le (stream.take 12)).magic = KORRA_MSG_MAGIC →
      (parseHeader le (stream.take 12)).version = KORRA_PROTOCOL_VERSION →
      0 < (parseHeader le (stream.take 12)).payload_size →
      min plRet (min (parseHeader le (stream.take 12)).payload_size
        (stream.drop 12).length) = 0 →
      transport_receive sock stream le hdrRet plRet true =
        ⟨-1, { sock with is_connected := false },
          some (parseHeader le (stream.take 12)).msg_type,
          some (parseHeader le (stream.take 12)).payload_size,
          some none, false, true⟩) ∧
    (∀ (sock : transport_socket_t) (stream : List Nat) (le : Bool) (hdrRet plRet : Nat),
      sock.is_connected = true → 12 ≤ hdrRet → 12 ≤ stream.length →
      (parseHeader le (stream.take 12)).magic = KORRA_MSG_MAGIC →
      (parseHeader le (stream.take 12)).version = KORRA_PROTOCOL_VERSION →
      0 < (parseHeader le (stream.take 12)).payload_size →
      min plRet (min (parseHeader le (stream.take 12)).payload_size
        (stream.drop 12).length) ≠ 0 →
      min plRet (min (parseHeader le (stream.take 12)).payload_size
        (stream.drop 12).length) ≠ (parseHeader le (stream.take 12)).payload_size →
      transport_receive sock stream le hdrRet plRet true =
        ⟨-1, sock, some (parseHeader le (stream.take 12)).msg_type,
          some (parseHeader le (stream.take 12)).payload_size,
          some none, false, true⟩) := by
  refine ⟨?_, ?_, ?_⟩
  · intro sock stream le hdrRet plRet mallocOk hc h0
    unfold transport_receive
    rw [hc, h0]
    norm_num
  · intro sock stream le hdrRet plRet hc hr hs hm hv hpos h0
    unfold transport_receive
    rw [hc]
    have hgot : min hdrRet (min 12 stream.length) = 12 := by omega
    rw [hgot]
    simp only [Bool.true_eq_false, if_false, ne_eq, not_true_eq_false, ite_false, reduceIte]
    rw [if_neg (not_not_intro hm), if_neg (not_not_intro hv), if_pos hpos]
    rw [h0]
    have hne : (0 : Nat) ≠ (parseHeader le (stream.take 12)).payload_size := by omega
    rw [if_pos hne, if_pos rfl]
  · intro sock stream le hdrRet plRet hc hr hs hm hv hpos hnz hns
    unfold transport_receive
    rw [hc]
    have hgot : min hdrRet (min 12 stream.length) = 12 := by omega
    rw [hgot]
    simp only [Bool.true_eq_false, if_false, ne_eq, not_true_eq_false, ite_false, reduceIte]
    rw [if_neg (not_not_intro hm), if_neg (not_not_intro hv), if_pos hpos]
    rw [if_pos hns, if_neg hnz]

theorem C8_zero_and_short_reads_witness :
    (min 12 (min 12 ([] : List Nat).length) = 0 ∧
      transport_receive sockB [] true 12 8 true =
        ⟨-1, { sockB with is_connected := false }, none, none, none, false, false⟩) ∧
    (min 0 (min (parseHeader true ((transport_send sockA msgSample 0 true true true).wire.take 12)).payload_size
        ((transport_send sockA msgSample 0 true true true).wire.drop 12).length) = 0 ∧
      transport_receive sockB (transport_send sockA msgSample 0 true true true).wire true 12 0 true =
        ⟨-1, { sockB with is_connected := false },
          some (parseHeader true ((transport_send sockA msgSample 0 true true true).wire.take 12)).msg_type,
          some (parseHeader true ((transport_send sockA msgSample 0 true true true).wire.take 12)).payload_size,
          some none, false, true⟩) ∧
    (transport_receive sockB (transport_send sockA msgSample 0 true true true).wire true 12 1 true =
        ⟨-1, sockB,
          some (parseHeader true ((transport_send sockA msgSample 0 true true true).wire.take 12)).msg_type,
          some (parseHeader true ((transport_send sockA msgSample 0 true true true).wire.take 12)).payload_size,
          some none, false, true⟩) :=
  ⟨⟨by decide, C8_zero_and_short_reads.1 sockB [] true 12 8 true rfl (by decide)⟩,
    ⟨by decide, C8_zero_and_short_reads.2.1 sockB _ true 12 0 rfl (by decide) (by decide)
      (by decide) (by decide) (by decide) (by decide)⟩,
    C8_zero_and_short_reads.2.2 sockB _ true 12 1 rfl (by decide) (by decide)
      (by decide) (by decide) (by decide) (by decide) (by decide)⟩

/-!
## Pool invariant lemmas
-/

theorem pendingList_succ (q : Nat → thread_task_t) (h n : Nat) :
    pendingList q h (n + 1) = q h :: pendingList q ((h + 1) % MAX_QUEUE) n := rfl

theorem pendingList_snoc (q : Nat → thread_task_t) :
    ∀ (n h : Nat), h < MAX_QUEUE →
    pendingList q h (n + 1) = pendingList q h n ++ [q ((h + n) % MAX_QUEUE)] := by
  intro n
  induction n with
  | zero =>
    intro h hh
    simp [pendingList, Nat.mod_eq_of_lt hh]
  | succ k ih =>
    intro h hh
    rw [pendingList_succ, ih ((h + 1) % MAX_QUEUE) (Nat.mod_lt _ (by decide)),
      pendingList_succ, List.cons_append]
    have hmod : ((h + 1) % MAX_QUEUE + k) % MAX_QUEUE = (h + (k + 1)) % MAX_QUEUE := by
      rw [Nat.mod_add_mod]
      congr 1
      omega
    rw [hmod]

theorem pendingList_update_notin (q : Nat → thread_task_t) (t : thread_task_t)
    (j : Nat) : ∀ (n h : Nat), h < MAX_QUEUE →
    (∀ i, i < n → (h + i) % MAX_QUEUE ≠ j) →
    pendingList (Function.update q j t) h n = pendingList q h n := by
  intro n
  induction n with
  | zero => intro h _ _; rfl
  | succ k ih =>
    intro h hh hni
    rw [pendingList_succ, pendingList_succ]
    have hhj : h ≠ j := by
      have := hni 0 (by omega)
      simpa [Nat.mod_eq_of_lt hh] using this
    rw [Function.update_noteq hhj]
    congr 1
    refine ih ((h + 1) % MAX_QUEUE) (Nat.mod_lt _ (by decide)) ?_
    intro i hi
    have := hni (i + 1) (by omega)
    rw [Nat.mod_add_mod]
    have harith : h + 1 + i = h + (i + 1) := by omega
    rw [harith]
    exact this

theorem poolInv_init : PoolInv initSys := by
  refine ⟨by decide, by decide, by decide, rfl, ?_, ?_⟩
  · rintro ⟨w, -, hw⟩
    exact absurd hw (by simp [initSys])
  · intro hr
    exact absurd hr (by simp [initSys])

theorem allExited_implies (s : PoolSys) (w : Nat) (hw : w < MAX_THREADS)
    (hall : allExited s = true) : s.workers w = true := by
  unfold allExited at hall
  rw [List.all_eq_true] at hall
  exact hall w (List.mem_range.mpr hw)

theorem poolInv_applyOp (s : PoolSys) (op : PoolOp) (hinv : PoolInv s) :
    PoolInv (applyOp s op) := by
  obtain ⟨hhead, hsize, htail, hsub, hwork, hret⟩ := hinv
  cases op with
  | submit t =>
    show PoolInv (match thread_pool_submit s.pool t with
      | none => s
      | some (r, p') =>
        if r = 0 then { s with pool := p', submitted := s.submitted ++ [t] }
        else { s with pool := p' })
    unfold thread_pool_submit
    by_cases hfull : s.pool.queue_size = MAX_QUEUE ∧ s.pool.shutdown = false
    · rw [if_pos hfull]
      exact ⟨hhead, hsize, htail, hsub, hwork, hret⟩
    · rw [if_neg hfull]
      by_cases hsd : s.pool.shutdown = true
      · rw [if_pos hsd]
        exact ⟨hhead, hsize, htail, hsub, hwork, hret⟩
      · rw [if_neg hsd]
        have hsdf : s.pool.shutdown = false := by
          cases hb : s.pool.shutdown
          · rfl
          · exact absurd hb hsd
        have hlt : s.pool.queue_size < MAX_QUEUE := by
          rcases Nat.lt_or_ge s.pool.queue_size MAX_QUEUE with h | h
          · exact h
          · exact absurd ⟨by omega, hsdf⟩ hfull
        refine ⟨hhead, ?_, ?_, ?_, ?_, ?_⟩
        · show s.pool.queue_size + 1 ≤ MAX_QUEUE
          omega
        · show (s.pool.tail + 1) % MAX_QUEUE =
            (s.pool.head + (s.pool.queue_size + 1)) % MAX_QUEUE
          rw [htail, Nat.mod_add_mod, Nat.add_assoc]
        · show s.submitted ++ [t] =
            s.dequeued ++ pendingList (Function.update s.pool.queue s.pool.tail t)
              s.pool.head (s.pool.queue_size + 1)
          rw [pendingList_snoc _ _ _ hhead,
            pendingList_update_notin _ _ _ _ _ hhead ?hnotin, htail,
            Function.update_same, hsub, List.append_assoc]
          case hnotin =>
            intro i hi
            rw [htail]
            intro hcontra
            have h256 : MAX_QUEUE = 256 := rfl
            rw [h256] at hcontra hlt hhead
            omega
        · rintro ⟨w, hw, hexited⟩
          exact absurd (hwork ⟨w, hw, hexited⟩).1 (by rw [hsdf]; decide)
        · intro hr
          exact absurd (hret hr).1 (by rw [hsdf]; decide)
  | worker w =>
    show PoolInv (if w < MAX_THREADS ∧ s.workers w = false then
      match thread_worker_step s.pool with
      | .blocked => s
      | .exit => { s with workers := Function.update s.workers w true }
      | .dequeued t p' => { s with pool := p', dequeued := s.dequeued ++ [t] }
      else s)
    by_cases hg : w < MAX_THREADS ∧ s.workers w = false
    · rw [if_pos hg]
      unfold thread_worker_step
      by_cases hb : s.pool.queue_size = 0 ∧ s.pool.shutdown = false
      · rw [if_pos hb]
        exact ⟨hhead, hsize, htail, hsub, hwork, hret⟩
      · rw [if_neg hb]
        by_cases hx : s.pool.shutdown = true ∧ s.pool.queue_size = 0
        · rw [if_pos hx]
          refine ⟨hhead, hsize, htail, hsub, fun _ => hx, ?_⟩
          intro hr
          obtain ⟨h1, h2⟩ := hret hr
          refine ⟨h1, ?_⟩
          show allExited { s with workers := Function.update s.workers w true } = true
          unfold allExited at h2 ⊢
          rw [List.all_eq_true] at h2 ⊢
          intro x hxmem
          show Function.update s.workers w true x = true
          by_cases hxw : x = w
          · rw [hxw, Function.update_same]
          · rw [Function.update_noteq hxw]
            exact h2 x hxmem
        · rw [if_neg hx]
          have hpos : 0 < s.pool.queue_size := by
            cases hbsd : s.pool.shutdown
            · rcases Nat.eq_zero_or_pos s.pool.queue_size with h | h
              · exact absurd ⟨h, hbsd⟩ hb
              · exact h
            · rcases Nat.eq_zero_or_pos s.pool.queue_size with h | h
              · exact absurd ⟨hbsd, h⟩ hx
              · exact h
          refine ⟨Nat.mod_lt _ (by decide), ?_, ?_, ?_, ?_, ?_⟩
          · show s.pool.queue_size - 1 ≤ MAX_QUEUE
            omega
          · show s.pool.tail =
              ((s.pool.head + 1) % MAX_QUEUE + (s.pool.queue_size - 1)) % MAX_QUEUE
            rw [htail, Nat.mod_add_mod]
            have harith : s.pool.head + 1 + (s.pool.queue_size - 1) =
                s.pool.head + s.pool.queue_size := by omega
            rw [harith]
          · show s.submitted = (s.dequeued ++ [s.pool.queue s.pool.head]) ++
              pendingList s.pool.queue ((s.pool.head + 1) % MAX_QUEUE)
                (s.pool.queue_size - 1)
            rw [hsub, List.append_assoc]
            congr 1
            have hq : s.pool.queue_size = (s.pool.queue_size - 1) + 1 := by omega
            rw [hq, pendingList_succ]
            rfl
          · rintro ⟨w', hw', hexited⟩
            exact absurd (hwork ⟨w', hw', hexited⟩).2 (by omega)
          · intro hr
            obtain ⟨-, h2⟩ := hret hr
            exact absurd (allExited_implies s w hg.1 h2) (by rw [hg.2]; decide)
    · rw [if_neg hg]
      exact ⟨hhead, hsize, htail, hsub, hwork, hret⟩
  | shutdownReq =>
    refine ⟨hhead, hsize, htail, hsub, ?_, ?_⟩
    · intro hex
      exact ⟨rfl, (hwork hex).2⟩
    · intro hr
      exact ⟨rfl, (hret hr).2⟩
  | shutdownRet =>
    show PoolInv (if s.pool.shutdown = true ∧ allExited s = true then
      { s with shutdownReturned := true } else s)
    by_cases hgd : s.pool.shutdown = true ∧ allExited s = true
    · rw [if_pos hgd]
      exact ⟨hhead, hsize, htail, hsub, hwork, fun _ => hgd⟩
    · rw [if_neg hgd]
      exact ⟨hhead, hsize, htail, hsub, hwork, hret⟩

theorem poolInv_applyOps (ops : List PoolOp) : ∀ (s : PoolSys), PoolInv s →
    PoolInv (applyOps s ops) := by
  induction ops with
  | nil => intro s hs; exact hs
  | cons op rest ih =>
    intro s hs
    exact ih (applyOp s op) (poolInv_applyOp s op hs)

/-- C4: over any sequence of atomic pool events starting from the
freshly-initialised pool — submits by any producers, loop iterations by
any workers, a shutdown request — the sequence of dequeued tasks is
exactly the first `k` submitted tasks in submission order (strict FIFO),
regardless of which worker performed each dequeue. -/
theorem C4_fifo_dequeue_order (ops : List PoolOp) :
    (applyOps initSys ops).dequeued =
      (applyOps initSys ops).submitted.take (applyOps initSys ops).dequeued.length ∧
    (applyOps initSys ops).dequeued.IsPrefix (applyOps initSys ops).submitted := by
  obtain ⟨-, -, -, hsub, -, -⟩ := poolInv_applyOps ops initSys poolInv_init
  constructor
  · rw [hsub, List.take_left]
  · exact ⟨_, hsub.symm⟩

/-- C6: (i) a worker-loop iteration results in thread exit only when the
shutdown flag is set and the queue is empty — a worker never terminates
while tasks are queued; (ii) `thread_pool_shutdown` returns only once all
workers have exited; and (iii) whenever `thread_pool_shutdown` has
returned, every task that was ever successfully enqueued has been dequeued
and executed. -/
theorem C6_shutdown_drains :
    (∀ p : thread_pool_t, thread_worker_step p = WorkerStep.exit →
      p.shutdown = true ∧ p.queue_size = 0) ∧
    (∀ ops : List PoolOp, (applyOps initSys ops).shutdownReturned = true →
      allExited (applyOps initSys ops) = true) ∧
    (∀ ops : List PoolOp, (applyOps initSys ops).shutdownReturned = true →
      (applyOps initSys ops).dequeued = (applyOps initSys ops).submitted) := by
  refine ⟨?_, ?_, ?_⟩
  · intro p hstep
    unfold thread_worker_step at hstep
    by_cases h1 : p.queue_size = 0 ∧ p.shutdown = false
    · rw [if_pos h1] at hstep
      cases hstep
    · rw [if_neg h1] at hstep
      by_cases h2 : p.shutdown = true ∧ p.queue_size = 0
      · exact h2
      · rw [if_neg h2] at hstep
        cases hstep
  · intro ops hr
    obtain ⟨-, -, -, -, -, hret⟩ := poolInv_applyOps ops initSys poolInv_init
    exact (hret hr).2
  · intro ops hr
    obtain ⟨-, -, -, hsub, hwork, hret⟩ := poolInv_applyOps ops initSys poolInv_init
    obtain ⟨-, hall⟩ := hret hr
    have h0 : (applyOps initSys ops).workers 0 = true :=
      allExited_implies _ 0 (by decide) hall
    have hsz := (hwork ⟨0, by decide, h0⟩).2
    rw [hsub, hsz]
    simp [pendingList]

/-- A trace that submits two tasks, lets workers drain them, requests
shutdown, lets all eight workers exit, and completes the join. -/
def drainTrace : List PoolOp :=
  [PoolOp.submit taskSample, PoolOp.submit ⟨"t1", 3, 4⟩,
   PoolOp.worker 2, PoolOp.worker 5, PoolOp.shutdownReq,
   PoolOp.worker 0, PoolOp.worker 1, PoolOp.worker 2, PoolOp.worker 3,
   PoolOp.worker 4, PoolOp.worker 5, PoolOp.worker 6, PoolOp.worker 7,
   PoolOp.shutdownRet]

/-- A pool state observed by a worker at shutdown with an empty queue. -/
def poolDrained : thread_pool_t :=
  { queue := fun _ => default, queue_size := 0, head := 2, tail := 2, shutdown := true }

theorem C6_shutdown_drains_witness :
    (thread_worker_step poolDrained = WorkerStep.exit ∧
      (poolDrained.shutdown = true ∧ poolDrained.queue_size = 0)) ∧
    ((applyOps initSys drainTrace).shutdownReturned = true ∧
      allExited (applyOps initSys drainTrace) = true) ∧
    ((applyOps initSys drainTrace).dequeued = (applyOps initSys drainTrace).submitted) :=
  ⟨⟨rfl, C6_shutdown_drains.1 poolDrained rfl⟩,
    ⟨by decide, C6_shutdown_drains.2.1 drainTrace (by decide)⟩,
    C6_shutdown_drains.2.2 drainTrace (by decide)⟩

end Korra
